import Mathlib

/-!
Verification of the Dora personal-knowledge backend (Python source under
`src/backend/src`).  The definitions below are a shallow embedding of the
relevant services: the URL service, the content save service and HTTP handler,
the shared-content repository counters, the content pipeline, the embedding
service and the clustering engine.  Machine integers are modelled as `Nat`/`Int`,
Python strings as `String` (processed as `List Char`), database state as explicit
record-passing, and fallible code as `Except`/`Option`.
-/

namespace Dora

/-! ## Enums (`shared/models/enums.py`) -/

inductive SourcePlatform
  | INSTAGRAM
  | YOUTUBE
  | UNKNOWN
deriving DecidableEq

inductive ItemStatus
  | PENDING
  | PROCESSING
  | READY
  | FAILED
deriving DecidableEq

inductive ContentCategory
  | TRAVEL
  | FOOD
  | LEARNING
  | CAREER
  | FITNESS
  | ENTERTAINMENT
  | SHOPPING
  | TECH
  | LIFESTYLE
  | MISC
deriving DecidableEq

/-- The `.value` string of each `ContentCategory` member. -/
def ContentCategory.value : ContentCategory → String
  | .TRAVEL => "Travel"
  | .FOOD => "Food"
  | .LEARNING => "Learning"
  | .CAREER => "Career"
  | .FITNESS => "Fitness"
  | .ENTERTAINMENT => "Entertainment"
  | .SHOPPING => "Shopping"
  | .TECH => "Tech"
  | .LIFESTYLE => "Lifestyle"
  | .MISC => "Misc"

inductive IntentType
  | LEARN
  | VISIT
  | BUY
  | TRY
  | WATCH
  | MISC
deriving DecidableEq

/-! ## URL service (`shared/services/url_service.py`)

Python's `urllib.parse` functions are embedded as `List Char` processors;
`URLService` itself follows the source line by line. -/

/-- Hexadecimal value of a character, as accepted by `urllib.parse.unquote`. -/
def hexVal (c : Char) : Option Nat :=
  if '0' ≤ c ∧ c ≤ '9' then some (c.toNat - '0'.toNat)
  else if 'a' ≤ c ∧ c ≤ 'f' then some (c.toNat - 'a'.toNat + 10)
  else if 'A' ≤ c ∧ c ≤ 'F' then some (c.toNat - 'A'.toNat + 10)
  else none

/-- `urllib.parse.unquote_plus` on ASCII input: `+` becomes a space and a valid
`%XX` escape is decoded; an invalid escape is kept verbatim. -/
def unquotePlus : List Char → List Char
  | [] => []
  | '%' :: a :: b :: rest =>
    match hexVal a, hexVal b with
    | some x, some y => Char.ofNat (16 * x + y) :: unquotePlus rest
    | _, _ => '%' :: unquotePlus (a :: b :: rest)
  | '+' :: rest => ' ' :: unquotePlus rest
  | c :: rest => c :: unquotePlus rest

/-- Split a character list at the first occurrence of `sep`
(Python's `str.split(sep, 1)`); `none` when `sep` does not occur. -/
def splitFirst (sep : Char) : List Char → List Char × Option (List Char)
  | [] => ([], none)
  | c :: rest =>
    if c = sep then ([], some rest)
    else
      let (pre, post) := splitFirst sep rest
      (c :: pre, post)

/-- Helper for `splitAll`: `acc` holds the reversed prefix of the current
segment. -/
def splitAllAux (sep : Char) : List Char → List Char → List (List Char)
  | [], acc => [acc.reverse]
  | c :: rest, acc =>
    if c = sep then acc.reverse :: splitAllAux sep rest []
    else splitAllAux sep rest (c :: acc)

/-- Split on every occurrence of `sep` (Python's `str.split(sep)`). -/
def splitAll (sep : Char) (cs : List Char) : List (List Char) :=
  splitAllAux sep cs []

/-- Result record of `urllib.parse.urlparse` (the `params` component is unused
by the source and omitted). -/
structure UrlParts where
  scheme : List Char
  netloc : List Char
  path : List Char
  query : List Char
  fragment : List Char
deriving DecidableEq

/-- Characters allowed in a URL scheme by `urllib.parse`. -/
def isSchemeChar (c : Char) : Bool :=
  c.isAlpha || c.isDigit || c = '+' || c = '-' || c = '.'

/-- `urllib.parse.urlparse` for the URLs the service receives: an optional
scheme (letters/digits/`+-.` starting with a letter, before the first `:`),
then `//netloc` up to `/`, `?` or `#`, then the path; the fragment is split
off at the first `#` before the query is split off at the first `?`. -/
def urlparseChars (url : List Char) : UrlParts :=
  -- scheme
  let candidate := url.takeWhile (fun c => c ≠ ':')
  let hasScheme :=
    candidate.length < url.length ∧ candidate ≠ [] ∧
      (candidate.headD ' ').isAlpha ∧ candidate.all isSchemeChar
  let (scheme, rest) :=
    if hasScheme then (candidate, url.drop (candidate.length + 1)) else ([], url)
  -- netloc
  let (netloc, rest2) :=
    match rest with
    | '/' :: '/' :: tail =>
      (tail.takeWhile (fun c => c ≠ '/' ∧ c ≠ '?' ∧ c ≠ '#'),
       tail.dropWhile (fun c => c ≠ '/' ∧ c ≠ '?' ∧ c ≠ '#'))
    | _ => ([], rest)
  -- fragment first, then query
  let (beforeFrag, fragOpt) := splitFirst '#' rest2
  let fragment := fragOpt.getD []
  let (path, queryOpt) := splitFirst '?' beforeFrag
  let query := queryOpt.getD []
  ⟨scheme, netloc, path, query, fragment⟩

/-- `urllib.parse.parse_qsl` with default arguments: split the query on `&`,
keep only segments that contain `=` with a non-empty value, and `unquote_plus`
both name and value. -/
def parse_qsl (query : List Char) : List (List Char × List Char) :=
  (splitAll '&' query).filterMap fun seg =>
    match splitFirst '=' seg with
    | (_, none) => none
    | (name, some value) =>
      if value = [] then none
      else some (unquotePlus name, unquotePlus value)

/-- Append `v` to the entry for key `k` in an insertion-ordered association
list, adding the key at the end when absent (Python `dict` insertion order). -/
def orderedGroupInsert {α β : Type} [DecidableEq α] :
    List (α × List β) → α → β → List (α × List β)
  | [], k, v => [(k, [v])]
  | (k', vs) :: rest, k, v =>
    if k' = k then (k', vs ++ [v]) :: rest
    else (k', vs) :: orderedGroupInsert rest k v

/-- `urllib.parse.parse_qs` with default arguments: pairs from `parse_qsl`
aggregated into an insertion-ordered map from name to list of values. -/
def parse_qs (query : List Char) : List (List Char × List (List Char)) :=
  (parse_qsl query).foldl (fun acc kv => orderedGroupInsert acc kv.1 kv.2) []

/-- Fuelled worker for `replaceAll`; one unit of fuel is spent per character
consumed, so `cs.length` fuel always suffices. -/
def replaceAllFuel (pat repl : List Char) : Nat → List Char → List Char
  | 0, cs => cs
  | _ + 1, [] => []
  | fuel + 1, c :: rest =>
    if !pat.isEmpty && pat.isPrefixOf (c :: rest) then
      repl ++ replaceAllFuel pat repl fuel ((c :: rest).drop pat.length)
    else
      c :: replaceAllFuel pat repl fuel rest

/-- Python `str.replace(pat, repl)`: every non-overlapping occurrence,
left to right. -/
def replaceAll (pat repl cs : List Char) : List Char :=
  replaceAllFuel pat repl cs.length cs

/-- Python `str.rstrip(ch)`: drop every trailing occurrence. -/
def rstripChar (ch : Char) (cs : List Char) : List Char :=
  (cs.reverse.dropWhile (fun c => c = ch)).reverse

/-- Python's substring containment test (`pat in s`). -/
def containsSub (pat : List Char) : List Char → Bool
  | [] => pat.isEmpty
  | c :: rest => pat.isPrefixOf (c :: rest) || containsSub pat rest

namespace URLService

/-- `URLService.TRACKING_PARAMS`. -/
def TRACKING_PARAMS : List String :=
  ["utm_source", "utm_medium", "utm_campaign", "utm_term", "utm_content",
   "ref", "fbclid", "gclid", "mc_cid", "mc_eid"]

/-- The rebuilt query string: non-tracking parameters joined as `k=v[0]`
with `&` (only the first value of each parameter survives). -/
def cleanQuery (query : List Char) : List Char :=
  let query_params := parse_qs query
  let clean_params :=
    query_params.filter fun kv => ¬ TRACKING_PARAMS.contains (String.mk kv.1)
  List.intercalate ['&'] (clean_params.map fun kv => kv.1 ++ '=' :: (kv.2.headD []))

/-- `urllib.parse.urlunparse(("https", netloc, path, "", query, ""))`. -/
def urlunparseHttps (netloc path query : List Char) : List Char :=
  'h' :: 't' :: 't' :: 'p' :: 's' :: ':' :: '/' :: '/' :: netloc ++ path ++
    (if query = [] then [] else '?' :: query)

/-- `URLService.normalize_url`: the whole URL is lower-cased by
`urlparse(url.lower())`, `www.` is removed from the netloc, the scheme is
forced to https, tracking parameters are stripped, trailing slashes and the
fragment are dropped. -/
def normalize_url (url : String) : String :=
  let parsed := urlparseChars (url.toList.map Char.toLower)
  let clean_query := cleanQuery parsed.query
  String.mk <| urlunparseHttps
    (replaceAll "www.".toList [] parsed.netloc)
    (rstripChar '/' parsed.path)
    clean_query

/-- `URLService.generate_url_hash`: the digest of the normalised URL.  The
SHA-256 function itself is an external primitive, passed as a parameter. -/
def generate_url_hash (sha256 : String → String) (url : String) : String :=
  sha256 (normalize_url url)

/-- `URLService.detect_platform`: substring tests on the lower-cased netloc
with `www.` removed. -/
def detect_platform (url : String) : SourcePlatform :=
  let parsed := urlparseChars (url.toList.map Char.toLower)
  let domain := replaceAll "www.".toList [] parsed.netloc
  if containsSub "instagram.com".toList domain then .INSTAGRAM
  else if containsSub "youtube.com".toList domain || containsSub "youtu.be".toList domain then
    .YOUTUBE
  else .UNKNOWN

/-- `URLService.validate_and_process`: `(normalized_url, url_hash, platform)`. -/
def validate_and_process (sha256 : String → String) (url : String) :
    String × String × SourcePlatform :=
  (normalize_url url, generate_url_hash sha256 url, detect_platform url)

end URLService

/-! ## Data model (`shared/models/*.py`)

Opaque ids (UUIDs) are modelled as `String`; `save_count` is an `Int` so that
non-negativity is a provable property rather than a typing artefact. -/

structure SharedContent where
  id : String
  url : String
  url_hash : String
  source_platform : SourcePlatform
  status : ItemStatus
  content_category : Option ContentCategory
  title : Option String := none
  caption : Option String := none
  description : Option String := none
  thumbnail_url : Option String := none
  duration_seconds : Option Nat := none
  content_text : Option String := none
  topic_main : Option String := none
  subcategories : List String := []
  locations : List String := []
  entities : List String := []
  intent : Option IntentType := none
  visual_description : Option String := none
  visual_tags : List String := []
  embedding_id : Option String := none
  save_count : Int
deriving DecidableEq

structure UserContentSave where
  id : String
  user_id : String
  shared_content_id : String
  raw_share_text : Option String := none
  is_favorited : Bool := false
  is_archived : Bool := false
  last_viewed_at : Option Nat := none
deriving DecidableEq

structure Cluster where
  id : String
  user_id : String
  content_category : ContentCategory
  label : String
  short_description : Option String := none
deriving DecidableEq

structure ClusterMembership where
  cluster_id : String
  user_save_id : String
deriving DecidableEq

/-- Body of a content-processing queue message, as built by
`SQSAdapter.send_content_processing_job`. -/
structure ContentProcessingMessage where
  job_type : String
  shared_content_id : String
  url : String
deriving DecidableEq

/-- `SQSAdapter.send_content_processing_job` (`shared/adapters/sqs_adapter.py`):
the message body `job_type = "ingest_content"` with the content id and URL. -/
def send_content_processing_job (shared_content_id url : String) :
    ContentProcessingMessage :=
  ⟨"ingest_content", shared_content_id, url⟩

/-- The relational store plus the content-processing queue; the authoritative
state the services and the pipeline act on. -/
structure Store where
  contents : List SharedContent
  saves : List UserContentSave
  clusters : List Cluster := []
  memberships : List ClusterMembership := []
  contentQueue : List ContentProcessingMessage := []
deriving DecidableEq

/-! ## Repositories (`shared/repositories/*.py`) -/

/-- `BaseRepository.get` specialised to SharedContent (also the sync
`get_by_id` the pipeline calls). -/
def get_content (st : Store) (content_id : String) : Option SharedContent :=
  st.contents.find? (fun c => c.id == content_id)

/-- `SharedContentRepository.get_by_url_hash`. -/
def get_by_url_hash (st : Store) (url_hash : String) : Option SharedContent :=
  st.contents.find? (fun c => c.url_hash == url_hash)

/-- `UserContentSaveRepository.get_user_save`: the save for a
`(user_id, shared_content_id)` pair. -/
def get_user_save (st : Store) (user_id shared_content_id : String) :
    Option UserContentSave :=
  st.saves.find? (fun s =>
    s.user_id == user_id && s.shared_content_id == shared_content_id)

/-- `BaseRepository.get` specialised to UserContentSave. -/
def get_save (st : Store) (save_id : String) : Option UserContentSave :=
  st.saves.find? (fun s => s.id == save_id)

/-- Replace the content row with the given id by `f` of it. -/
def update_content (st : Store) (content_id : String)
    (f : SharedContent → SharedContent) : Store :=
  { st with contents := st.contents.map (fun c => if c.id == content_id then f c else c) }

/-- `SharedContentRepository.increment_save_count`:
`content.save_count = (content.save_count or 0) + 1`; returns the updated row
(or `none` when absent) together with the resulting store. -/
def increment_save_count (st : Store) (content_id : String) :
    Option SharedContent × Store :=
  match get_content st content_id with
  | none => (none, st)
  | some c =>
    let c' := { c with save_count := c.save_count + 1 }
    (some c', update_content st content_id (fun _ => c'))

/-- `SharedContentRepository.decrement_save_count`:
`content.save_count = max(0, (content.save_count or 0) - 1)`. -/
def decrement_save_count (st : Store) (content_id : String) :
    Option SharedContent × Store :=
  match get_content st content_id with
  | none => (none, st)
  | some c =>
    let c' := { c with save_count := max 0 (c.save_count - 1) }
    (some c', update_content st content_id (fun _ => c'))

/-- `SharedContentRepository.create` as called by
`ContentService.save_content`: status PENDING, `content_category = None`,
`save_count = 1`. -/
def create_shared_content (st : Store) (new_id url url_hash : String)
    (source_platform : SourcePlatform) : SharedContent × Store :=
  let c : SharedContent :=
    { id := new_id, url := url, url_hash := url_hash,
      source_platform := source_platform, status := .PENDING,
      content_category := none, save_count := 1 }
  (c, { st with contents := st.contents ++ [c] })

/-- `UserContentSaveRepository.create` as called by
`ContentService.save_content`. -/
def create_user_save (st : Store) (new_id user_id shared_content_id : String)
    (raw_share_text : Option String) : UserContentSave × Store :=
  let s : UserContentSave :=
    { id := new_id, user_id := user_id, shared_content_id := shared_content_id,
      raw_share_text := raw_share_text }
  (s, { st with saves := st.saves ++ [s] })

/-! ## Exceptions (`shared/core/exceptions.py`) -/

/-- The data carried by a `DoraException`. -/
structure DoraExceptionData where
  message : String
  status_code : Nat
  error_code : String
deriving DecidableEq

/-- `ConflictError`: status 409, error code CONFLICT. -/
def ConflictError (message : String) : DoraExceptionData :=
  { message := message, status_code := 409, error_code := "CONFLICT" }

/-! ## Content service (`shared/services/content_service.py`) -/

/-- `ContentService.save_content`.  Fresh row ids (assigned by the store) are
passed in as `new_content_id` / `new_save_id`.  On the dedup path the service
returns the row SQLAlchemy's identity map aliases with the incremented one. -/
def save_content (st : Store) (new_content_id new_save_id : String)
    (user_id url url_hash : String) (platform : SourcePlatform)
    (raw_share_text : Option String) :
    Except DoraExceptionData (UserContentSave × SharedContent × Bool × Store) :=
  match get_by_url_hash st url_hash with
  | some existing_content =>
    match get_user_save st user_id existing_content.id with
    | some _ => .error (ConflictError "Content already saved by user")
    | none =>
      let (save, st1) := create_user_save st new_save_id user_id
        existing_content.id raw_share_text
      let (updated, st2) := increment_save_count st1 existing_content.id
      .ok (save, updated.getD existing_content, false, st2)
  | none =>
    let (new_content, st1) := create_shared_content st new_content_id url
      url_hash platform
    let (save, st2) := create_user_save st1 new_save_id user_id
      new_content.id raw_share_text
    .ok (save, new_content, true, st2)

/-- `ContentService.get_user_save_by_id`: the save, provided it belongs to the
user. -/
def get_user_save_by_id (st : Store) (user_id save_id : String) :
    Option UserContentSave :=
  match get_save st save_id with
  | some save => if save.user_id == user_id then some save else none
  | none => none

/-- `ContentService.update_user_save`: update `raw_share_text`,
`is_favorited`, `is_archived` when provided (a `None` argument leaves the
field unchanged). -/
def update_user_save (st : Store) (user_id save_id : String)
    (raw_share_text : Option String) (is_favorited : Option Bool)
    (is_archived : Option Bool) : Option UserContentSave × Store :=
  match get_user_save_by_id st user_id save_id with
  | none => (none, st)
  | some save =>
    let save' :=
      { save with
        raw_share_text := match raw_share_text with
          | some t => some t
          | none => save.raw_share_text
        is_favorited := (is_favorited.getD save.is_favorited)
        is_archived := (is_archived.getD save.is_archived) }
    (some save',
     { st with saves := st.saves.map (fun t => if t.id == save_id then save' else t) })

/-- `ContentService.delete_user_save`: decrement the target's save count, then
remove the save row. -/
def delete_user_save (st : Store) (user_id save_id : String) : Bool × Store :=
  match get_user_save_by_id st user_id save_id with
  | none => (false, st)
  | some save =>
    let (_, st1) := decrement_save_count st save.shared_content_id
    (true, { st1 with saves := st1.saves.filter (fun t => !(t.id == save_id)) })

/-! ## HTTP save handler (`api/handlers/content_handler.py`) -/

/-- `save_content` in the handler: validates the URL, calls the service, and
catches `ConflictError` by raising `HTTPException(status.HTTP_400_BAD_REQUEST)`;
on success FastAPI replies with `status.HTTP_201_CREATED`.  Returns the HTTP
status code and the resulting store. -/
def handler_save_content (st : Store) (new_content_id new_save_id : String)
    (current_user_id : String) (request_url : String)
    (raw_share_text : Option String) (sha256 : String → String) : Nat × Store :=
  let (normalized_url, url_hash, platform) :=
    URLService.validate_and_process sha256 request_url
  match save_content st new_content_id new_save_id current_user_id
      normalized_url url_hash platform raw_share_text with
  | .error _ => (400, st)
  | .ok (_, _, _, st') => (201, st')

/-! ## Content pipeline (`worker/pipelines/content_pipeline.py`) -/

/-- `ContentAnalysisResult`. -/
structure ContentAnalysisResult where
  content_category : ContentCategory
  topic_main : Option String := none
  subcategories : List String := []
  locations : List String := []
  entities : List String := []
  intent : Option IntentType := none
  summary : Option String := none
deriving DecidableEq

/-- `PipelineResult`. -/
structure PipelineResult where
  success : Bool
  shared_content_id : String
  content_category : Option ContentCategory := none
  error_message : Option String := none
deriving DecidableEq

/-- Option-valued field that is only kept when Python finds it truthy
(`if content.title:` — `None` and the empty string are both falsy). -/
def truthyStr (s : Option String) : Option String :=
  match s with
  | some t => if t = "" then none else some t
  | none => none

/-- `ContentPipeline._run_enrichment`: `content_text` built from the truthy
title/caption/description, joined with newlines, `None` when no part exists. -/
def run_enrichment_text (c : SharedContent) : Option String :=
  let parts :=
    (match truthyStr c.title with
     | some t => ["Title: " ++ t]
     | none => []) ++
    (match truthyStr c.caption with
     | some t => ["Caption: " ++ t]
     | none => []) ++
    (match truthyStr c.description with
     | some t => ["Description: " ++ t]
     | none => [])
  if parts = [] then none else some (String.intercalate "\n" parts)

/-- `ContentPipeline._run_analysis`: the placeholder classification — category
MISC, `topic_main = content.title`, empty lists, intent MISC. -/
def run_analysis (c : SharedContent) : ContentAnalysisResult :=
  { content_category := .MISC, topic_main := c.title, subcategories := [],
    locations := [], entities := [], intent := some .MISC }

/-- `ContentPipeline._run_vectorization`: the placeholder returns
`f"shared:{content.id}"` as the embedding id. -/
def run_vectorization (c : SharedContent) (_analysis : ContentAnalysisResult) :
    Option String :=
  some ("shared:" ++ c.id)

/-- Modelled from the spec: `SharedContentRepository.update_after_processing`
is called by the pipeline but is not defined under `src`.  Per the spec's
pipeline success step, it updates the SharedContent with the derived fields,
records `embedding_id`, and transitions the status to READY. -/
def update_after_processing (st : Store) (content_id : String)
    (cat : ContentCategory) (topic_main : Option String)
    (subcategories locations entities : List String)
    (intent : Option IntentType) (embedding_id : Option String) : Store :=
  update_content st content_id (fun c =>
    { c with content_category := some cat, topic_main := topic_main,
             subcategories := subcategories, locations := locations,
             entities := entities, intent := intent,
             embedding_id := embedding_id, status := .READY })

/-- `ContentPipeline.process`: not-found check, READY skip, else
PROCESSING → ingestion (placeholder) → enrichment → analysis → vectorisation →
`update_after_processing`. -/
def ContentPipeline_process (st : Store) (shared_content_id : String) :
    PipelineResult × Store :=
  match get_content st shared_content_id with
  | none =>
    ({ success := false, shared_content_id := shared_content_id,
       error_message := some "SharedContent not found" }, st)
  | some content =>
    if content.status = .READY then
      -- Skip if already processed
      ({ success := true, shared_content_id := shared_content_id,
         content_category := content.content_category }, st)
    else
      let st1 := update_content st shared_content_id
        (fun c => { c with status := .PROCESSING })
      -- Stage 1: ingestion is a placeholder with no effect
      let st2 := update_content st1 shared_content_id
        (fun c => { c with content_text := run_enrichment_text c })
      let content2 := (get_content st2 shared_content_id).getD content
      let analysis_result := run_analysis content2
      let embedding_id := run_vectorization content2 analysis_result
      let st3 := update_after_processing st2 shared_content_id
        analysis_result.content_category analysis_result.topic_main
        analysis_result.subcategories analysis_result.locations
        analysis_result.entities analysis_result.intent embedding_id
      ({ success := true, shared_content_id := shared_content_id,
         content_category := some analysis_result.content_category }, st3)

/-! ## Embedding service (`shared/services/embedding_service.py`) -/

/-- A point written into the vector index. -/
structure VectorPoint where
  id : String
  payload_content_id : String
deriving DecidableEq

/-- `EmbeddingService.generate_and_store_embedding`, restricted to its id
bookkeeping: the embedding id it returns is `str(content.id)` and the vector
index point is upserted under that same id. -/
def generate_and_store_embedding (content : SharedContent) :
    String × VectorPoint :=
  let embedding_id := content.id
  (embedding_id, { id := embedding_id, payload_content_id := content.id })

/-! ## Clustering service (`shared/services/clustering_service.py`)

The two sklearn externals — `cosine_distances` and
`AgglomerativeClustering(...).fit_predict` — are passed in as parameters:
`D i j` is the distance-matrix entry and `fitPredict k D` the label vector
produced for `n_clusters = k`. -/

def MIN_CLUSTER_SIZE : Nat := 2

def MIN_ITEMS_FOR_CLUSTERING : Nat := 3

/-- `ClusteringResult`. -/
structure ClusteringResult where
  label_id : Nat
  save_ids : List String
  centroid_idx : Nat
deriving DecidableEq

/-- `ClusterLabelResult`. -/
structure ClusterLabelResult where
  label : String
  short_description : String
deriving DecidableEq

/-- `n_clusters = max(1, min(int(np.sqrt(n_samples)), n_samples // 2))`.
`int(np.sqrt(n))` is modelled as `Nat.sqrt n`, exact for every feasible list
length. -/
def n_clusters (n_samples : Nat) : Nat :=
  max 1 (min (Nat.sqrt n_samples) (n_samples / 2))

/-- Index of the first minimum of a rational list (`np.argmin`). -/
def argminQ (l : List ℚ) : Nat :=
  (l.foldl
    (fun (acc : Nat × Option (Nat × ℚ)) v =>
      match acc with
      | (i, none) => (i + 1, some (i, v))
      | (i, some (bi, bv)) =>
        if v < bv then (i + 1, some (i, v)) else (i + 1, some (bi, bv)))
    (0, none)).2.elim 0 (·.1)

/-- The centroid representative of a group: the member with minimum average
distance to the group (ties to the first index, as `np.argmin` returns the
first occurrence). -/
def pick_centroid (D : Nat → Nat → ℚ) (indices : List Nat) : Nat :=
  let avg_distances :=
    indices.map (fun i => (indices.map (fun j => D i j)).sum / indices.length)
  indices.getD (argminQ avg_distances) 0

/-- `ClusteringService._run_clustering`: below `MIN_ITEMS_FOR_CLUSTERING`
return nothing; otherwise group the `fitPredict` labels (insertion-ordered,
as a Python dict), drop groups below `MIN_CLUSTER_SIZE`, and pick each
surviving group's centroid. -/
def run_clustering (fitPredict : Nat → (Nat → Nat → ℚ) → List Nat)
    (D : Nat → Nat → ℚ) (save_ids : List String) : List ClusteringResult :=
  let n_samples := save_ids.length
  if n_samples < MIN_ITEMS_FOR_CLUSTERING then []
  else
    let labels := fitPredict (n_clusters n_samples) D
    let clusters_dict :=
      ((labels.zip save_ids).enum).foldl
        (fun acc p => orderedGroupInsert acc p.2.1 (p.1, p.2.2))
        ([] : List (Nat × List (Nat × String)))
    clusters_dict.filterMap fun g =>
      if MIN_CLUSTER_SIZE ≤ g.2.length then
        let indices : List Nat := g.2.map Prod.fst
        let sids : List String := g.2.map Prod.snd
        let centroid_idx : Nat :=
          if 1 < indices.length then pick_centroid D indices
          else indices.headD 0
        some (⟨g.1, sids, centroid_idx⟩ : ClusteringResult)
      else none

/-- Modelled from the spec:
`UserContentSaveRepository.get_user_saves_for_clustering` is called by the
clustering service but is not defined under `src`.  Per the spec's clustering
step 1, it selects the user's saves whose target is READY, has an
`embedding_id`, carries the given category, and which are not archived. -/
def get_user_saves_for_clustering (st : Store) (user_id : String)
    (content_category : ContentCategory) : List UserContentSave :=
  st.saves.filter fun s =>
    s.user_id == user_id && !s.is_archived &&
      (match get_content st s.shared_content_id with
       | some c =>
         c.status == .READY && c.embedding_id.isSome &&
           c.content_category == some content_category
       | none => false)

/-- `ClusterRepository.delete_user_clusters_by_category`: remove the user's
clusters in the category; their memberships cascade
(`cascade="all, delete-orphan"` on `Cluster.cluster_memberships`). -/
def delete_user_clusters_by_category (st : Store) (user_id : String)
    (content_category : ContentCategory) : Store × Nat :=
  let doomed := st.clusters.filter
    (fun c => c.user_id == user_id && c.content_category == content_category)
  ({ st with
     clusters := st.clusters.filter
       (fun c => !(c.user_id == user_id && c.content_category == content_category)),
     memberships := st.memberships.filter
       (fun m => !(doomed.any (fun c => c.id == m.cluster_id))) },
   doomed.length)

/-- `ClusterRepository.create_cluster`. -/
def create_cluster (st : Store) (new_id user_id : String)
    (content_category : ContentCategory) (label : String)
    (short_description : Option String) : Cluster × Store :=
  let c : Cluster :=
    { id := new_id, user_id := user_id, content_category := content_category,
      label := label, short_description := short_description }
  (c, { st with clusters := st.clusters ++ [c] })

/-- The `topics` and `locations` lists that
`ClusteringService._generate_cluster_label` accumulates over the sample saves
(truthy `topic_main` values, all locations). -/
def build_label_inputs (st : Store) (sample_saves : List UserContentSave) :
    List String × List String :=
  (sample_saves.filterMap (fun s =>
     (get_content st s.shared_content_id).bind (fun c => truthyStr c.topic_main)),
   sample_saves.flatMap (fun s =>
     ((get_content st s.shared_content_id).map (·.locations)).getD []))

/-- Python `str.lower()` on ASCII text. -/
def lowerStr (s : String) : String :=
  String.mk (s.toList.map Char.toLower)

/-- `ClusteringService._generate_label_fallback`: a location gives
`"{Category} in {location}"`, otherwise topics give `"{Category} Collection"`,
otherwise `"{Category} Saves"`.  Python's unordered `list(set(locations))` is
modelled by `List.dedup`. -/
def generate_label_fallback (content_category : ContentCategory)
    (topics locations : List String) : ClusterLabelResult :=
  let unique_locations := locations.dedup.take 3
  match unique_locations with
  | location_str :: _ =>
    { label := content_category.value ++ " in " ++ location_str,
      short_description :=
        "Saved " ++ lowerStr content_category.value ++
          " content related to " ++ location_str ++ "." }
  | [] =>
    if topics ≠ [] then
      { label := content_category.value ++ " Collection",
        short_description :=
          "A collection of " ++ lowerStr content_category.value ++ " content." }
    else
      { label := content_category.value ++ " Saves",
        short_description :=
          "Saved " ++ lowerStr content_category.value ++ " items." }

/-- `ClusteringService._generate_cluster_label`: try the LLM (`llmResult` is
`none` exactly when `_generate_label_with_llm` raises) and fall back to the
rule-based label, so the caller never sees an error. -/
def generate_cluster_label (llmResult : Option ClusterLabelResult) (st : Store)
    (content_category : ContentCategory)
    (sample_saves : List UserContentSave) : ClusterLabelResult :=
  let inputs := build_label_inputs st sample_saves
  match llmResult with
  | some r => r
  | none => generate_label_fallback content_category inputs.1 inputs.2

/-- The creation loop of `ClusteringService.cluster_user_category` (step 5):
for each clustering result, label the first five sample saves, create the
cluster with a store-assigned fresh id (`freshIds i` for the i-th insertion),
and add one membership per member save. -/
def insert_clusters (llmResult : Option ClusterLabelResult)
    (user_id : String) (content_category : ContentCategory)
    (saves : List UserContentSave) (freshIds : Nat → String) :
    Store → Nat → List ClusteringResult → List Cluster × Store
  | st, _, [] => ([], st)
  | st, i, result :: rest =>
    let sample_saves := (result.save_ids.take 5).filterMap
      (fun sid => saves.find? (fun s => s.id == sid))
    let label_result :=
      generate_cluster_label llmResult st content_category sample_saves
    let created := create_cluster st (freshIds i) user_id
      content_category label_result.label (some label_result.short_description)
    let cluster := created.1
    let st2 := { created.2 with
      memberships := created.2.memberships ++
        result.save_ids.map (fun sid => ⟨cluster.id, sid⟩) }
    let rec_result :=
      insert_clusters llmResult user_id content_category saves freshIds
        st2 (i + 1) rest
    (cluster :: rec_result.1, rec_result.2)

/-- The step-2 loop of `cluster_user_category`: the saves whose content id has
a vector in `embeddings_map`. -/
def clustering_usable (st : Store) (user_id : String)
    (content_category : ContentCategory)
    (embeddings_map : List (String × List ℚ)) : List UserContentSave :=
  (get_user_saves_for_clustering st user_id content_category).filter (fun s =>
    (embeddings_map.find? (fun p => p.1 == s.shared_content_id)).isSome)

/-- The `save_ids` list built by the step-2 loop. -/
def clustering_save_ids (st : Store) (user_id : String)
    (content_category : ContentCategory)
    (embeddings_map : List (String × List ℚ)) : List String :=
  (clustering_usable st user_id content_category embeddings_map).map
    (fun s => s.id)

/-- The `embeddings` matrix (row list) built by the step-2 loop. -/
def clustering_embeddings (st : Store) (user_id : String)
    (content_category : ContentCategory)
    (embeddings_map : List (String × List ℚ)) : List (List ℚ) :=
  (clustering_usable st user_id content_category embeddings_map).filterMap
    (fun s => (embeddings_map.find? (fun p => p.1 == s.shared_content_id)).map (·.2))

/-- `ClusteringService.cluster_user_category`: select the saves, keep those
with a vector in `embeddings_map`, run the clustering, and — when it produced
results — delete the user's existing clusters in this category before
inserting the new ones. -/
def cluster_user_category (fitPredict : Nat → (Nat → Nat → ℚ) → List Nat)
    (cosine_distances : List (List ℚ) → Nat → Nat → ℚ)
    (llmResult : Option ClusterLabelResult) (freshIds : Nat → String)
    (st : Store) (user_id : String) (content_category : ContentCategory)
    (embeddings_map : List (String × List ℚ)) : List Cluster × Store :=
  let saves := get_user_saves_for_clustering st user_id content_category
  if saves.length < MIN_ITEMS_FOR_CLUSTERING then ([], st)
  else
    let save_ids := clustering_save_ids st user_id content_category embeddings_map
    let embeddings := clustering_embeddings st user_id content_category embeddings_map
    if embeddings.length < MIN_ITEMS_FOR_CLUSTERING then ([], st)
    else
      let D := cosine_distances embeddings
      let clustering_results := run_clustering fitPredict D save_ids
      if clustering_results = [] then ([], st)
      else
        let st1 :=
          (delete_user_clusters_by_category st user_id content_category).1
        insert_clusters llmResult user_id content_category saves freshIds
          st1 0 clustering_results

/-- Python `str.endswith`. -/
def endsWithStr (s suf : String) : Bool :=
  suf.toList.reverse.isPrefixOf s.toList.reverse

/-!
# Claims
-/

/-- Claim C10: `SharedContent.save_count` is never negative — creation
initialises it to 1, `increment_save_count` adds exactly one,
`decrement_save_count` sets it to `max 0 (old - 1)`, both operations preserve
non-negativity, and decrementing a content whose count is already 0 leaves it
at 0. -/
theorem save_count_never_negative (st : Store) (new_id url url_hash : String)
    (platform : SourcePlatform) (content_id : String) (c : SharedContent)
    (h : get_content st content_id = some c) :
    (create_shared_content st new_id url url_hash platform).1.save_count = 1
    ∧ (increment_save_count st content_id).1 =
        some { c with save_count := c.save_count + 1 }
    ∧ (decrement_save_count st content_id).1 =
        some { c with save_count := max 0 (c.save_count - 1) }
    ∧ (∀ c', 0 ≤ c.save_count →
        (increment_save_count st content_id).1 = some c' → 0 ≤ c'.save_count)
    ∧ (∀ c', (decrement_save_count st content_id).1 = some c' → 0 ≤ c'.save_count)
    ∧ (c.save_count = 0 → ∀ c',
        (decrement_save_count st content_id).1 = some c' → c'.save_count = 0) := by
  refine ⟨rfl, ?_, ?_, ?_, ?_, ?_⟩
  · simp [increment_save_count, h]
  · simp [decrement_save_count, h]
  · intro c' hnn hc'
    simp [increment_save_count, h] at hc'
    rw [← hc']
    show 0 ≤ c.save_count + 1
    omega
  · intro c' hc'
    simp [decrement_save_count, h] at hc'
    rw [← hc']
    show 0 ≤ max 0 (c.save_count - 1)
    simp
  · intro h0 c' hc'
    simp [decrement_save_count, h] at hc'
    rw [← hc']
    show max 0 (c.save_count - 1) = 0
    rw [h0]
    decide

/-- Closed witness for `save_count_never_negative` on a one-row store. -/
theorem save_count_never_negative_witness :
    (let c : SharedContent :=
      { id := "c1", url := "u", url_hash := "h", source_platform := .UNKNOWN,
        status := .PENDING, content_category := none, save_count := 0 }
     let st : Store := { contents := [c], saves := [] }
     (create_shared_content st "c2" "u2" "h2" .UNKNOWN).1.save_count = 1
     ∧ (increment_save_count st "c1").1 = some { c with save_count := c.save_count + 1 }
     ∧ (decrement_save_count st "c1").1 = some { c with save_count := max 0 (c.save_count - 1) }
     ∧ (∀ c', 0 ≤ c.save_count →
         (increment_save_count st "c1").1 = some c' → 0 ≤ c'.save_count)
     ∧ (∀ c', (decrement_save_count st "c1").1 = some c' → 0 ≤ c'.save_count)
     ∧ (c.save_count = 0 → ∀ c',
         (decrement_save_count st "c1").1 = some c' → c'.save_count = 0)) :=
  save_count_never_negative _ "c2" "u2" "h2" .UNKNOWN "c1" _ (by decide)

/-- Claim C9: a successful `update_user_save` (note / favourite / archive
fields) leaves the whole SharedContent table, and in particular the referenced
SharedContent row, unchanged. -/
theorem update_user_save_frame (st : Store) (user_id save_id : String)
    (raw_share_text : Option String) (is_favorited is_archived : Option Bool)
    (save : UserContentSave)
    (h : (update_user_save st user_id save_id raw_share_text is_favorited
            is_archived).1 = some save) :
    (update_user_save st user_id save_id raw_share_text is_favorited
        is_archived).2.contents = st.contents
    ∧ get_content (update_user_save st user_id save_id raw_share_text
        is_favorited is_archived).2 save.shared_content_id =
        get_content st save.shared_content_id := by
  unfold update_user_save at *
  cases hg : get_user_save_by_id st user_id save_id with
  | none => rw [hg] at h; simp at h
  | some s => exact ⟨rfl, rfl⟩

/-- Closed witness for `update_user_save_frame`. -/
theorem update_user_save_frame_witness :
    (let c : SharedContent :=
      { id := "c1", url := "u", url_hash := "h", source_platform := .UNKNOWN,
        status := .READY, content_category := some .FOOD, save_count := 1 }
     let s : UserContentSave := { id := "s1", user_id := "u1", shared_content_id := "c1" }
     let st : Store := { contents := [c], saves := [s] }
     (update_user_save st "u1" "s1" (some "note") (some true) none).2.contents = st.contents
     ∧ get_content (update_user_save st "u1" "s1" (some "note") (some true) none).2
         "c1" = get_content st "c1") :=
  update_user_save_frame _ "u1" "s1" (some "note") (some true) none
    { id := "s1", user_id := "u1", shared_content_id := "c1",
      raw_share_text := some "note", is_favorited := true, is_archived := false }
    (by decide)

/-- Claim C3: READY is terminal for the pipeline — `ContentPipeline.process`
on a READY SharedContent reports success with the already-assigned category
and leaves the store (status, category and every other field) untouched. -/
theorem ready_is_terminal (st : Store) (content_id : String) (c : SharedContent)
    (hget : get_content st content_id = some c) (hready : c.status = .READY) :
    ContentPipeline_process st content_id =
      ({ success := true, shared_content_id := content_id,
         content_category := c.content_category }, st) := by
  unfold ContentPipeline_process
  rw [hget]
  simp [hready]

/-- Closed witness for `ready_is_terminal`. -/
theorem ready_is_terminal_witness :
    (let c : SharedContent :=
      { id := "c1", url := "u", url_hash := "h", source_platform := .UNKNOWN,
        status := .READY, content_category := some .FOOD,
        embedding_id := some "c1", save_count := 1 }
     let st : Store := { contents := [c], saves := [] }
     ContentPipeline_process st "c1" =
       ({ success := true, shared_content_id := "c1",
          content_category := some .FOOD }, st)) :=
  ready_is_terminal _ "c1"
    { id := "c1", url := "u", url_hash := "h", source_platform := .UNKNOWN,
      status := .READY, content_category := some .FOOD,
      embedding_id := some "c1", save_count := 1 }
    (by decide) (by decide)

/-- Claim C1: on a fresh url_hash the save flow does create the PENDING
SharedContent (`content_category = None`, `save_count = 1`, detected platform)
and the UserContentSave, but — evaluating the whole save path — it never
enqueues the content-processing job message the spec requires:
`SQSAdapter.send_content_processing_job` has no caller, and the queue stays
empty even though the handler replies that processing has been queued. -/
theorem save_flow_never_enqueues_processing_job :
    (let r := handler_save_content { contents := [], saves := [] } "c1" "s1"
       "u1" "https://www.instagram.com/p/XYZ?utm_source=x" none (fun s => s)
     r.1 = 201
     ∧ r.2.contents =
         [{ id := "c1", url := "https://instagram.com/p/xyz",
            url_hash := "https://instagram.com/p/xyz",
            source_platform := .INSTAGRAM, status := .PENDING,
            content_category := none, save_count := 1 }]
     ∧ r.2.saves = [{ id := "s1", user_id := "u1", shared_content_id := "c1" }]
     ∧ r.2.contentQueue = []
     ∧ r.2.contentQueue ≠
         [send_content_processing_job "c1" "https://instagram.com/p/xyz"]) := by
  decide

deriving instance DecidableEq for Except

/-- Claim C2: a duplicate save by the same user fails in the service with
`ConflictError` — whose own status code is 409 — and leaves the store
unchanged, but the HTTP handler catches it and answers 400, not 409. -/
theorem duplicate_save_returns_400_not_409 :
    (let st1 := (handler_save_content { contents := [], saves := [] } "c1" "s1"
       "u1" "https://instagram.com/p/abc" none (fun s => s)).2
     save_content st1 "c2" "s2" "u1" "https://instagram.com/p/abc"
         "https://instagram.com/p/abc" .INSTAGRAM none =
       .error (ConflictError "Content already saved by user")
     ∧ (ConflictError "Content already saved by user").status_code = 409
     ∧ (ConflictError "Content already saved by user").error_code = "CONFLICT"
     ∧ handler_save_content st1 "c2" "s2" "u1" "https://instagram.com/p/abc"
         none (fun s => s) = (400, st1)) := by
  decide

/-- Claim C6: processing a PENDING SharedContent to success records
`embedding_id = "shared:" ++ id` (the pipeline's `_run_vectorization`), which
is not the SharedContent id; `EmbeddingService.generate_and_store_embedding`,
by contrast, does return the bare content id and upserts the vector point
under it. -/
theorem pipeline_embedding_id_is_not_content_id :
    (let c : SharedContent :=
      { id := "c1", url := "u", url_hash := "h", source_platform := .UNKNOWN,
        status := .PENDING, content_category := none, save_count := 1 }
     let r := ContentPipeline_process { contents := [c], saves := [] } "c1"
     r.1.success = true
     ∧ (get_content r.2 "c1").map (fun d => d.embedding_id) =
         some (some "shared:c1")
     ∧ (get_content r.2 "c1").map (fun d => d.status) = some ItemStatus.READY
     ∧ (generate_and_store_embedding c).1 = "c1"
     ∧ (generate_and_store_embedding c).2.id = "c1"
     ∧ ("shared:c1" : String) ≠ "c1") := by
  decide

/-- Claim C7, counterexample: `normalize_url` lower-cases the whole URL, not
only the host, so the normalised form of
`https://www.instagram.com/p/XYZ?utm_source=x` ends with `/p/xyz` and not
with `/p/XYZ` as the claim states. -/
theorem normalize_url_lowercases_path :
    URLService.normalize_url "https://www.instagram.com/p/XYZ?utm_source=x" =
      "https://instagram.com/p/xyz"
    ∧ endsWithStr
        (URLService.normalize_url "https://www.instagram.com/p/XYZ?utm_source=x")
        "/p/XYZ" = false := by
  decide

/-- Claim C7, amended: both example URLs normalise to the same URL
`https://instagram.com/p/xyz` — whose path ends with the lower-cased `/p/xyz`,
because normalisation lower-cases the entire URL and not only the host — the
platform is detected as instagram, and saving both (any digest function)
yields exactly one SharedContent with `save_count = 2`. -/
theorem normalize_url_dedup_scenario (sha256 : String → String) :
    URLService.normalize_url "https://www.instagram.com/p/XYZ?utm_source=x" =
      "https://instagram.com/p/xyz"
    ∧ URLService.normalize_url "https://instagram.com/p/XYZ/" =
        "https://instagram.com/p/xyz"
    ∧ endsWithStr "https://instagram.com/p/xyz" "/p/xyz" = true
    ∧ URLService.detect_platform "https://www.instagram.com/p/XYZ?utm_source=x" =
        .INSTAGRAM
    ∧ URLService.detect_platform "https://instagram.com/p/XYZ/" = .INSTAGRAM
    ∧ (let r1 := handler_save_content { contents := [], saves := [] } "c1" "s1"
         "userA" "https://www.instagram.com/p/XYZ?utm_source=x" none sha256
       let r2 := handler_save_content r1.2 "c2" "s2"
         "userB" "https://instagram.com/p/XYZ/" none sha256
       r1.1 = 201 ∧ r2.1 = 201
       ∧ r2.2.contents.map (fun c => (c.url, c.source_platform, c.save_count)) =
           [("https://instagram.com/p/xyz", SourcePlatform.INSTAGRAM, (2 : Int))]) := by
  have hA : URLService.normalize_url "https://www.instagram.com/p/XYZ?utm_source=x" =
      "https://instagram.com/p/xyz" := by decide
  have hB : URLService.normalize_url "https://instagram.com/p/XYZ/" =
      "https://instagram.com/p/xyz" := by decide
  have hdA : URLService.detect_platform "https://www.instagram.com/p/XYZ?utm_source=x" =
      .INSTAGRAM := by decide
  have hdB : URLService.detect_platform "https://instagram.com/p/XYZ/" = .INSTAGRAM := by
    decide
  refine ⟨hA, hB, by decide, hdA, hdB, ?_⟩
  simp only [handler_save_content, URLService.validate_and_process,
    URLService.generate_url_hash, hA, hB, hdA, hdB]
  simp [save_content, get_by_url_hash, get_user_save, create_user_save,
    create_shared_content, increment_save_count, get_content, update_content]

/-- Closed witness for `normalize_url_dedup_scenario`, with the identity as
the digest function. -/
theorem normalize_url_dedup_scenario_witness :
    URLService.normalize_url "https://www.instagram.com/p/XYZ?utm_source=x" =
      "https://instagram.com/p/xyz"
    ∧ URLService.normalize_url "https://instagram.com/p/XYZ/" =
        "https://instagram.com/p/xyz"
    ∧ endsWithStr "https://instagram.com/p/xyz" "/p/xyz" = true
    ∧ URLService.detect_platform "https://www.instagram.com/p/XYZ?utm_source=x" =
        .INSTAGRAM
    ∧ URLService.detect_platform "https://instagram.com/p/XYZ/" = .INSTAGRAM
    ∧ (let r1 := handler_save_content { contents := [], saves := [] } "c1" "s1"
         "userA" "https://www.instagram.com/p/XYZ?utm_source=x" none (fun s => s)
       let r2 := handler_save_content r1.2 "c2" "s2"
         "userB" "https://instagram.com/p/XYZ/" none (fun s => s)
       r1.1 = 201 ∧ r2.1 = 201
       ∧ r2.2.contents.map (fun c => (c.url, c.source_platform, c.save_count)) =
           [("https://instagram.com/p/xyz", SourcePlatform.INSTAGRAM, (2 : Int))]) :=
  normalize_url_dedup_scenario (fun s => s)

/-- Claim C8, counterexample: when the LLM fails and the sampled members
contribute no location and no topic, the fallback label is
`"{Category} Saves"`, not `"{Category} Collection"` as the claim states. -/
theorem fallback_label_counterexample :
    (let s : UserContentSave := { id := "s1", user_id := "u1", shared_content_id := "c1" }
     let c : SharedContent :=
       { id := "c1", url := "u", url_hash := "h", source_platform := .INSTAGRAM,
         status := .READY, content_category := some .FOOD,
         embedding_id := some "c1", save_count := 1 }
     let st : Store := { contents := [c], saves := [s] }
     (generate_cluster_label none st .FOOD [s]).label = "Food Saves"
     ∧ (generate_cluster_label none st .FOOD [s]).label ≠ "Food Collection") := by
  decide

/-- Claim C8, amended: on LLM failure the engine returns the deterministic
rule-based label without raising — `"{Category} in {location}"` for some
contributed location when there is one; `"{Category} Collection"` when there
is no location but at least one topic; and `"{Category} Saves"` when the
samples contribute neither. -/
theorem fallback_label_spec (st : Store) (cat : ContentCategory)
    (samples : List UserContentSave) :
    ((build_label_inputs st samples).2 ≠ [] →
      ∃ loc ∈ (build_label_inputs st samples).2,
        (generate_cluster_label none st cat samples).label =
          cat.value ++ " in " ++ loc)
    ∧ ((build_label_inputs st samples).2 = [] →
        (build_label_inputs st samples).1 ≠ [] →
        (generate_cluster_label none st cat samples).label = cat.value ++ " Collection")
    ∧ ((build_label_inputs st samples).2 = [] →
        (build_label_inputs st samples).1 = [] →
        (generate_cluster_label none st cat samples).label = cat.value ++ " Saves") := by
  refine ⟨?_, ?_, ?_⟩
  · intro hne
    have hd : (build_label_inputs st samples).2.dedup ≠ [] := by
      simpa [List.dedup_eq_nil] using hne
    cases hdd : (build_label_inputs st samples).2.dedup with
    | nil => exact absurd hdd hd
    | cons x xs =>
      refine ⟨x, ?_, ?_⟩
      · have hx : x ∈ (build_label_inputs st samples).2.dedup := by
          rw [hdd]; exact List.mem_cons_self _ _
        exact List.mem_dedup.mp hx
      · simp [generate_cluster_label, generate_label_fallback, hdd]
  · intro h2 h1
    simp [generate_cluster_label, generate_label_fallback, h2, h1]
  · intro h2 h1
    simp [generate_cluster_label, generate_label_fallback, h2, h1]

/-- Closed witness for `fallback_label_spec`: a Food cluster whose samples
share the location Indiranagar gets the label `Food in Indiranagar` from the
rule-based fallback. -/
theorem fallback_label_spec_witness :
    (let c1 : SharedContent :=
       { id := "c1", url := "u1", url_hash := "h1", source_platform := .INSTAGRAM,
         status := .READY, content_category := some .FOOD,
         topic_main := some "Dosa spots", locations := ["Indiranagar"],
         embedding_id := some "c1", save_count := 1 }
     let c2 : SharedContent :=
       { id := "c2", url := "u2", url_hash := "h2", source_platform := .INSTAGRAM,
         status := .READY, content_category := some .FOOD,
         topic_main := some "Filter coffee", locations := ["Indiranagar"],
         embedding_id := some "c2", save_count := 1 }
     let s1 : UserContentSave := { id := "s1", user_id := "u1", shared_content_id := "c1" }
     let s2 : UserContentSave := { id := "s2", user_id := "u1", shared_content_id := "c2" }
     let st : Store := { contents := [c1, c2], saves := [s1, s2] }
     ∃ loc ∈ (build_label_inputs st [s1, s2]).2,
       (generate_cluster_label none st .FOOD [s1, s2]).label =
         ContentCategory.FOOD.value ++ " in " ++ loc) :=
  (fallback_label_spec _ .FOOD _).1 (by decide)

/-- Claim C4: for n ≥ 3 vectors the clustering consults the agglomerative
labelling only at `k = max 1 (min ⌊√n⌋ ⌊n/2⌋)` — two label functions that
agree at that k (over the pairwise distance matrix) give identical clustering
results. -/
theorem run_clustering_requests_spec_k
    (f g : Nat → (Nat → Nat → ℚ) → List Nat) (D : Nat → Nat → ℚ)
    (save_ids : List String) (h3 : 3 ≤ save_ids.length)
    (hfg : f (max 1 (min (Nat.sqrt save_ids.length) (save_ids.length / 2))) D =
           g (max 1 (min (Nat.sqrt save_ids.length) (save_ids.length / 2))) D) :
    run_clustering f D save_ids = run_clustering g D save_ids := by
  unfold run_clustering
  rw [if_neg (by simp only [MIN_ITEMS_FOR_CLUSTERING]; omega),
      if_neg (by simp only [MIN_ITEMS_FOR_CLUSTERING]; omega)]
  have hk : f (n_clusters save_ids.length) D = g (n_clusters save_ids.length) D := hfg
  rw [hk]

theorem nat_sqrt_three : Nat.sqrt 3 = 1 := (Nat.eq_sqrt.mpr (by norm_num)).symm

theorem n_clusters_three : n_clusters 3 = 1 := by
  simp [n_clusters, nat_sqrt_three]

/-- Closed witness for `run_clustering_requests_spec_k`: with three vectors
the spec k is 1, and a label function perturbed away from k = 1 clusters
identically. -/
theorem run_clustering_requests_spec_k_witness :
    run_clustering (fun _ _ => [0, 0, 0]) (fun _ _ => 0) ["a", "b", "c"] =
      run_clustering
        (fun k d => if k = 1 then (fun _ _ => [0, 0, 0]) k d else [0, 1, 2])
        (fun _ _ => 0) ["a", "b", "c"] :=
  run_clustering_requests_spec_k _ _ _ _ (by decide)
    (by simp [nat_sqrt_three])

/-! Auxiliary facts about insertion-ordered grouping, used for the clustering
replacement claim. -/

/-- Total number of grouped entries. -/
def groupSizes {α β : Type} (gs : List (α × List β)) : Nat :=
  (gs.map (fun g => g.2.length)).sum

theorem groupSizes_orderedGroupInsert {α β : Type} [DecidableEq α]
    (gs : List (α × List β)) (k : α) (v : β) :
    groupSizes (orderedGroupInsert gs k v) = groupSizes gs + 1 := by
  induction gs with
  | nil => simp [orderedGroupInsert, groupSizes]
  | cons g tl ih =>
    obtain ⟨k', vs⟩ := g
    by_cases h : k' = k
    · simp [orderedGroupInsert, h, groupSizes]
      omega
    · simp only [orderedGroupInsert, if_neg h, groupSizes, List.map_cons,
        List.sum_cons] at ih ⊢
      omega

theorem keys_orderedGroupInsert {α β : Type} [DecidableEq α]
    (gs : List (α × List β)) (k : α) (v : β) :
    (orderedGroupInsert gs k v).map Prod.fst =
      if k ∈ gs.map Prod.fst then gs.map Prod.fst
      else gs.map Prod.fst ++ [k] := by
  induction gs with
  | nil => simp [orderedGroupInsert]
  | cons g tl ih =>
    obtain ⟨k', vs⟩ := g
    by_cases h : k' = k
    · simp [orderedGroupInsert, h]
    · have hne : ¬ k = k' := fun hh => h hh.symm
      simp only [orderedGroupInsert, if_neg h, List.map_cons, List.mem_cons, hne,
        false_or, ih]
      by_cases h2 : k ∈ tl.map Prod.fst <;> simp [h2]

theorem keys_nodup_orderedGroupInsert {α β : Type} [DecidableEq α]
    (gs : List (α × List β)) (k : α) (v : β)
    (h : (gs.map Prod.fst).Nodup) :
    ((orderedGroupInsert gs k v).map Prod.fst).Nodup := by
  rw [keys_orderedGroupInsert]
  split
  · exact h
  · next hk =>
    exact ((List.perm_append_singleton k _).nodup_iff).mpr
      (List.nodup_cons.mpr ⟨hk, h⟩)

theorem keys_sub_orderedGroupInsert {α β : Type} [DecidableEq α]
    (gs : List (α × List β)) (k : α) (v : β) (x : α)
    (hx : x ∈ (orderedGroupInsert gs k v).map Prod.fst) :
    x ∈ gs.map Prod.fst ∨ x = k := by
  rw [keys_orderedGroupInsert] at hx
  split at hx
  · exact .inl hx
  · rcases List.mem_append.mp hx with h | h
    · exact .inl h
    · exact .inr (by simpa using h)

theorem groupFold_sizes {α β γ : Type} [DecidableEq α]
    (key : γ → α) (val : γ → β) :
    ∀ (ps : List γ) (acc : List (α × List β)),
      groupSizes (ps.foldl (fun a p => orderedGroupInsert a (key p) (val p)) acc) =
        groupSizes acc + ps.length := by
  intro ps
  induction ps with
  | nil => simp
  | cons p tl ih =>
    intro acc
    simp only [List.foldl_cons, ih, groupSizes_orderedGroupInsert,
      List.length_cons]
    omega

theorem groupFold_keys_nodup {α β γ : Type} [DecidableEq α]
    (key : γ → α) (val : γ → β) :
    ∀ (ps : List γ) (acc : List (α × List β)),
      (acc.map Prod.fst).Nodup →
      ((ps.foldl (fun a p => orderedGroupInsert a (key p) (val p)) acc).map
        Prod.fst).Nodup := by
  intro ps
  induction ps with
  | nil => intro acc h; simpa using h
  | cons p tl ih =>
    intro acc h
    exact ih _ (keys_nodup_orderedGroupInsert _ _ _ h)

theorem groupFold_keys_mem {α β γ : Type} [DecidableEq α]
    (key : γ → α) (val : γ → β) :
    ∀ (ps : List γ) (acc : List (α × List β)) (x : α),
      x ∈ (ps.foldl (fun a p => orderedGroupInsert a (key p) (val p)) acc).map
        Prod.fst →
      x ∈ acc.map Prod.fst ∨ ∃ p ∈ ps, x = key p := by
  intro ps
  induction ps with
  | nil => intro acc x hx; exact .inl (by simpa using hx)
  | cons p tl ih =>
    intro acc x hx
    rcases ih _ x hx with h | ⟨q, hq, hxq⟩
    · rcases keys_sub_orderedGroupInsert _ _ _ _ h with h' | h'
      · exact .inl h'
      · exact .inr ⟨p, List.mem_cons_self _ _, h'⟩
    · exact .inr ⟨q, List.mem_cons_of_mem _ hq, hxq⟩

theorem length_filterMap_of_forall_isSome {α β : Type} (f : α → Option β) :
    ∀ (l : List α), (∀ x ∈ l, (f x).isSome) → (l.filterMap f).length = l.length := by
  intro l
  induction l with
  | nil => simp
  | cons a t ih =>
    intro h
    rcases Option.isSome_iff_exists.mp (h a (List.mem_cons_self _ _)) with ⟨b, hb⟩
    simp [List.filterMap_cons, hb, ih (fun x hx => h x (List.mem_cons_of_mem _ hx))]

theorem mem_enumFrom_snd {α : Type} :
    ∀ (l : List α) (n : Nat) (p : Nat × α), p ∈ l.enumFrom n → p.2 ∈ l := by
  intro l
  induction l with
  | nil => intro n p hp; simp [List.enumFrom] at hp
  | cons a t ih =>
    intro n p hp
    simp only [List.enumFrom, List.mem_cons] at hp
    rcases hp with h | h
    · simp [h]
    · exact List.mem_cons_of_mem _ (ih (n + 1) p h)

theorem run_clustering_eq (f : Nat → (Nat → Nat → ℚ) → List Nat)
    (D : Nat → Nat → ℚ) (save_ids : List String)
    (h : ¬ save_ids.length < MIN_ITEMS_FOR_CLUSTERING) :
    run_clustering f D save_ids =
      (((f (n_clusters save_ids.length) D).zip save_ids).enum.foldl
        (fun acc p => orderedGroupInsert acc p.2.1 (p.1, p.2.2))
        ([] : List (Nat × List (Nat × String)))).filterMap (fun g =>
          if MIN_CLUSTER_SIZE ≤ g.2.length then
            some (⟨g.1, g.2.map Prod.snd,
              if 1 < (g.2.map Prod.fst).length then
                pick_centroid D (g.2.map Prod.fst)
              else (g.2.map Prod.fst).headD 0⟩ : ClusteringResult)
          else none) := by
  unfold run_clustering
  rw [if_neg h]

/-- Every result of `_run_clustering` survives the `MIN_CLUSTER_SIZE` filter,
so it has at least `MIN_CLUSTER_SIZE` member save ids. -/
theorem run_clustering_sizes (f : Nat → (Nat → Nat → ℚ) → List Nat)
    (D : Nat → Nat → ℚ) (save_ids : List String) :
    ∀ r ∈ run_clustering f D save_ids, MIN_CLUSTER_SIZE ≤ r.save_ids.length := by
  intro r hr
  by_cases hsmall : save_ids.length < MIN_ITEMS_FOR_CLUSTERING
  · have hempty : run_clustering f D save_ids = [] := by
      simp only [run_clustering]
      rw [if_pos hsmall]
    rw [hempty] at hr
    simp at hr
  · rw [run_clustering_eq f D save_ids hsmall] at hr
    obtain ⟨g, hg, heq⟩ := List.mem_filterMap.mp hr
    by_cases hc : MIN_CLUSTER_SIZE ≤ g.2.length
    · rw [if_pos hc] at heq
      obtain rfl := (Option.some.injEq _ _).mp heq
      simpa using hc
    · rw [if_neg hc] at heq
      exact absurd heq (by simp)

/-- If the labels returned for `k = n_clusters n` form a partition-style
labelling (n labels, all below k), some group reaches `MIN_CLUSTER_SIZE`, so
`_run_clustering` returns at least one cluster. -/
theorem run_clustering_ne_nil (f : Nat → (Nat → Nat → ℚ) → List Nat)
    (D : Nat → Nat → ℚ) (save_ids : List String)
    (h3 : MIN_ITEMS_FOR_CLUSTERING ≤ save_ids.length)
    (hlen : (f (n_clusters save_ids.length) D).length = save_ids.length)
    (hlt : ∀ l ∈ f (n_clusters save_ids.length) D, l < n_clusters save_ids.length) :
    run_clustering f D save_ids ≠ [] := by
  have hnotlt : ¬ save_ids.length < MIN_ITEMS_FOR_CLUSTERING := by omega
  rw [run_clustering_eq f D save_ids hnotlt]
  set n := save_ids.length with hn
  set k := n_clusters n with hk
  set labels := f k D with hlabels
  set pairs := (labels.zip save_ids).enum with hpairs
  set groups := pairs.foldl
    (fun acc p => orderedGroupInsert acc p.2.1 (p.1, p.2.2))
    ([] : List (Nat × List (Nat × String))) with hgroups
  -- total size of the groups is n
  have hsizes : groupSizes groups = n := by
    have := groupFold_sizes (γ := Nat × Nat × String)
      (fun p => p.2.1) (fun p => (p.1, p.2.2)) pairs []
    simp only [] at this
    rw [hgroups, this]
    simp [groupSizes, hpairs, List.enum_length, List.length_zip, hlen]
  -- the group keys are distinct labels, all < k
  have hkeysnodup : (groups.map Prod.fst).Nodup := by
    have := groupFold_keys_nodup (γ := Nat × Nat × String)
      (fun p => p.2.1) (fun p => (p.1, p.2.2)) pairs []
    simp only [] at this
    exact this (by simp)
  have hkeyslt : ∀ x ∈ groups.map Prod.fst, x < k := by
    intro x hx
    have := groupFold_keys_mem (γ := Nat × Nat × String)
      (fun p => p.2.1) (fun p => (p.1, p.2.2)) pairs [] x
    simp only [] at this
    rcases this hx with h | ⟨p, hp, hxp⟩
    · simp at h
    · have hp2 : p.2 ∈ labels.zip save_ids := mem_enumFrom_snd _ 0 p hp
      have : p.2.1 ∈ labels := (List.of_mem_zip (by exact hp2)).1
      exact hxp ▸ hlt _ this
  -- hence at most k groups
  have hcount : groups.length ≤ k := by
    have h1 : (groups.map Prod.fst).toFinset.card = (groups.map Prod.fst).length :=
      List.toFinset_card_of_nodup hkeysnodup
    have h2 : (groups.map Prod.fst).toFinset ⊆ Finset.range k := by
      intro x hx
      simp only [List.mem_toFinset] at hx
      exact Finset.mem_range.mpr (hkeyslt x hx)
    have := Finset.card_le_card h2
    rw [h1, Finset.card_range] at this
    simpa using this
  -- k ≤ n / 2 for n ≥ 3
  have hk2 : k ≤ n / 2 := by
    rw [hk]
    simp only [n_clusters]
    have h1 : 1 ≤ n / 2 := by
      simp only [MIN_ITEMS_FOR_CLUSTERING] at h3; omega
    omega
  -- pigeonhole: some group has at least two members
  have hbig : ∃ g ∈ groups, MIN_CLUSTER_SIZE ≤ g.2.length := by
    by_contra hall
    push_neg at hall
    have hallle : ∀ g ∈ groups, g.2.length ≤ 1 := by
      intro g hg
      have := hall g hg
      simp only [MIN_CLUSTER_SIZE] at this
      omega
    have hle : groupSizes groups ≤ groups.length := by
      have := List.sum_le_card_nsmul (groups.map (fun g => g.2.length)) 1 ?_
      · simpa [groupSizes] using this
      · intro x hx
        obtain ⟨g, hg, rfl⟩ := List.mem_map.mp hx
        exact hallle g hg
    simp only [MIN_ITEMS_FOR_CLUSTERING] at h3
    omega
  obtain ⟨g, hg, hgsize⟩ := hbig
  intro hnil
  have : (⟨g.1, g.2.map Prod.snd,
      if 1 < (g.2.map Prod.fst).length then pick_centroid D (g.2.map Prod.fst)
      else (g.2.map Prod.fst).headD 0⟩ : ClusteringResult) ∈
      ([] : List ClusteringResult) := by
    rw [← hnil]
    exact List.mem_filterMap.mpr ⟨g, hg, by rw [if_pos hgsize]⟩
  simp at this

/-- The creation loop only appends to the cluster table. -/
theorem insert_clusters_clusters (llmResult : Option ClusterLabelResult)
    (uid : String) (cat : ContentCategory) (saves : List UserContentSave)
    (freshIds : Nat → String) :
    ∀ (rs : List ClusteringResult) (st : Store) (i : Nat),
      (insert_clusters llmResult uid cat saves freshIds st i rs).2.clusters =
        st.clusters ++ (insert_clusters llmResult uid cat saves freshIds st i rs).1 := by
  intro rs
  induction rs with
  | nil => intro st i; simp [insert_clusters]
  | cons r tl ih =>
    intro st i
    simp only [insert_clusters, create_cluster]
    rw [ih]
    simp

/-- Every created cluster carries the user, the category, and a fresh id. -/
theorem insert_clusters_created (llmResult : Option ClusterLabelResult)
    (uid : String) (cat : ContentCategory) (saves : List UserContentSave)
    (freshIds : Nat → String) :
    ∀ (rs : List ClusteringResult) (st : Store) (i : Nat),
      ∀ c ∈ (insert_clusters llmResult uid cat saves freshIds st i rs).1,
        c.user_id = uid ∧ c.content_category = cat ∧ ∃ j, c.id = freshIds j := by
  intro rs
  induction rs with
  | nil => intro st i c hc; simp [insert_clusters] at hc
  | cons r tl ih =>
    intro st i c hc
    simp only [insert_clusters, create_cluster] at hc
    rcases List.mem_cons.mp hc with rfl | h
    · exact ⟨rfl, rfl, i, rfl⟩
    · exact ih _ _ c h

/-- Every membership in the final store is an original one or points to a
fresh cluster id. -/
theorem insert_clusters_memberships (llmResult : Option ClusterLabelResult)
    (uid : String) (cat : ContentCategory) (saves : List UserContentSave)
    (freshIds : Nat → String) :
    ∀ (rs : List ClusteringResult) (st : Store) (i : Nat)
      (m : ClusterMembership),
      m ∈ (insert_clusters llmResult uid cat saves freshIds st i rs).2.memberships →
      m ∈ st.memberships ∨ ∃ j, m.cluster_id = freshIds j := by
  intro rs
  induction rs with
  | nil => intro st i m hm; simp only [insert_clusters] at hm; exact .inl hm
  | cons r tl ih =>
    intro st i m hm
    simp only [insert_clusters, create_cluster] at hm
    rcases ih _ _ m hm with h | h
    · simp only [List.mem_append] at h
      rcases h with h | h
      · exact .inl h
      · obtain ⟨sid, _, rfl⟩ := List.mem_map.mp h
        exact .inr ⟨i, rfl⟩
    · exact .inr h

/-- The creation loop never shrinks a membership count. -/
theorem insert_clusters_filter_count (llmResult : Option ClusterLabelResult)
    (uid : String) (cat : ContentCategory) (saves : List UserContentSave)
    (freshIds : Nat → String) :
    ∀ (rs : List ClusteringResult) (st : Store) (i : Nat)
      (p : ClusterMembership → Bool),
      (st.memberships.filter p).length ≤
        ((insert_clusters llmResult uid cat saves freshIds st i rs).2.memberships.filter
          p).length := by
  intro rs
  induction rs with
  | nil => intro st i p; simp [insert_clusters]
  | cons r tl ih =>
    intro st i p
    simp only [insert_clusters, create_cluster]
    refine le_trans ?_ (ih _ (i + 1) p)
    simp [List.filter_append]

/-- Count of memberships pointing at a fixed fresh cluster id among the ones
a single insertion appends. -/
theorem filter_count_new_memberships (sids : List String) (fid : String) :
    ((sids.map (fun sid => (⟨fid, sid⟩ : ClusterMembership))).filter
      (fun m => m.cluster_id == fid)).length = sids.length := by
  induction sids with
  | nil => simp
  | cons a t ih => simp [ih]

/-- Every cluster the loop creates ends up with at least as many memberships
as its clustering result had save ids. -/
theorem insert_clusters_counts (llmResult : Option ClusterLabelResult)
    (uid : String) (cat : ContentCategory) (saves : List UserContentSave)
    (freshIds : Nat → String) :
    ∀ (rs : List ClusteringResult) (st : Store) (i : Nat),
      (∀ r ∈ rs, MIN_CLUSTER_SIZE ≤ r.save_ids.length) →
      ∀ c ∈ (insert_clusters llmResult uid cat saves freshIds st i rs).1,
        MIN_CLUSTER_SIZE ≤
          ((insert_clusters llmResult uid cat saves freshIds st i rs).2.memberships.filter
            (fun m => m.cluster_id == c.id)).length := by
  intro rs
  induction rs with
  | nil => intro st i _ c hc; simp [insert_clusters] at hc
  | cons r tl ih =>
    intro st i hsz c hc
    simp only [insert_clusters, create_cluster] at hc ⊢
    rcases List.mem_cons.mp hc with rfl | h
    · refine le_trans ?_ (insert_clusters_filter_count llmResult uid cat saves
        freshIds tl _ (i + 1) _)
      simp only [List.filter_append, List.length_append]
      have hnew := filter_count_new_memberships r.save_ids (freshIds i)
      rw [hnew]
      have := hsz r (List.mem_cons_self _ _)
      omega
    · exact ih _ (i + 1) (fun q hq => hsz q (List.mem_cons_of_mem _ hq)) c h

/-- Claim C5: with at least `MIN_ITEMS_FOR_CLUSTERING` usable vectors and a
well-formed sklearn labelling (one label per vector, labels below the
requested k), re-clustering replaces the user's clusters in the category:
no previously existing `(user, category)` cluster id survives, none of their
memberships survives, and every inserted cluster receives at least
`MIN_CLUSTER_SIZE` memberships. -/
theorem cluster_replacement
    (fitPredict : Nat → (Nat → Nat → ℚ) → List Nat)
    (cosine_distances : List (List ℚ) → Nat → Nat → ℚ)
    (llmResult : Option ClusterLabelResult) (freshIds : Nat → String)
    (st : Store) (user_id : String) (cat : ContentCategory)
    (embeddings_map : List (String × List ℚ))
    (husable : MIN_ITEMS_FOR_CLUSTERING ≤
      (clustering_usable st user_id cat embeddings_map).length)
    (hlen : (fitPredict
        (n_clusters (clustering_save_ids st user_id cat embeddings_map).length)
        (cosine_distances (clustering_embeddings st user_id cat embeddings_map))).length =
      (clustering_save_ids st user_id cat embeddings_map).length)
    (hlt : ∀ l ∈ fitPredict
        (n_clusters (clustering_save_ids st user_id cat embeddings_map).length)
        (cosine_distances (clustering_embeddings st user_id cat embeddings_map)),
      l < n_clusters (clustering_save_ids st user_id cat embeddings_map).length)
    (hfresh : ∀ i, ∀ c ∈ st.clusters, freshIds i ≠ c.id)
    (hnodup : (st.clusters.map Cluster.id).Nodup) :
    (∀ c ∈ st.clusters, c.user_id = user_id → c.content_category = cat →
      c.id ∉ (cluster_user_category fitPredict cosine_distances llmResult
        freshIds st user_id cat embeddings_map).2.clusters.map Cluster.id)
    ∧ (∀ m ∈ st.memberships,
        (∃ c ∈ st.clusters, c.id = m.cluster_id ∧ c.user_id = user_id ∧
          c.content_category = cat) →
        m ∉ (cluster_user_category fitPredict cosine_distances llmResult
          freshIds st user_id cat embeddings_map).2.memberships)
    ∧ (∀ c ∈ (cluster_user_category fitPredict cosine_distances llmResult
        freshIds st user_id cat embeddings_map).1,
        MIN_CLUSTER_SIZE ≤
          ((cluster_user_category fitPredict cosine_distances llmResult
            freshIds st user_id cat embeddings_map).2.memberships.filter
            (fun m => m.cluster_id == c.id)).length) := by
  have hsave_ids_len : (clustering_save_ids st user_id cat embeddings_map).length =
      (clustering_usable st user_id cat embeddings_map).length := by
    simp [clustering_save_ids]
  have hemb_len : (clustering_embeddings st user_id cat embeddings_map).length =
      (clustering_usable st user_id cat embeddings_map).length := by
    apply length_filterMap_of_forall_isSome
    intro x hx
    have hmem := List.mem_filter.mp hx
    simpa using hmem.2
  have hsaves_ge : MIN_ITEMS_FOR_CLUSTERING ≤
      (get_user_saves_for_clustering st user_id cat).length :=
    le_trans husable (List.length_filter_le _ _)
  have hne : run_clustering fitPredict
      (cosine_distances (clustering_embeddings st user_id cat embeddings_map))
      (clustering_save_ids st user_id cat embeddings_map) ≠ [] :=
    run_clustering_ne_nil _ _ _ (by rw [hsave_ids_len]; exact husable) hlen hlt
  have hCCeq : cluster_user_category fitPredict cosine_distances llmResult
      freshIds st user_id cat embeddings_map =
      insert_clusters llmResult user_id cat
        (get_user_saves_for_clustering st user_id cat) freshIds
        (delete_user_clusters_by_category st user_id cat).1 0
        (run_clustering fitPredict
          (cosine_distances (clustering_embeddings st user_id cat embeddings_map))
          (clustering_save_ids st user_id cat embeddings_map)) := by
    simp only [cluster_user_category]
    rw [if_neg (by omega), if_neg (by rw [hemb_len]; omega), if_neg hne]
  rw [hCCeq]
  have hst1c : (delete_user_clusters_by_category st user_id cat).1.clusters =
      st.clusters.filter
        (fun c => !(c.user_id == user_id && c.content_category == cat)) := rfl
  have hst1m : (delete_user_clusters_by_category st user_id cat).1.memberships =
      st.memberships.filter (fun m =>
        !((st.clusters.filter
            (fun c => c.user_id == user_id && c.content_category == cat)).any
          (fun c => c.id == m.cluster_id))) := rfl
  refine ⟨?_, ?_, ?_⟩
  · -- no old (user, category) cluster id survives
    intro c hc hu hcat hmem
    rw [insert_clusters_clusters, List.map_append, List.mem_append] at hmem
    rcases hmem with h | h
    · obtain ⟨c', hc', hid⟩ := List.mem_map.mp h
      rw [hst1c] at hc'
      have hc'f := List.mem_filter.mp hc'
      have hcc : c' = c :=
        List.inj_on_of_nodup_map hnodup hc'f.1 hc hid
      rw [hcc] at hc'f
      simp [hu, hcat] at hc'f
    · obtain ⟨c', hc', hid⟩ := List.mem_map.mp h
      obtain ⟨_, _, j, hj⟩ := insert_clusters_created _ _ _ _ _ _ _ _ c' hc'
      exact hfresh j c hc (by rw [← hj, hid])
  · -- no membership of an old (user, category) cluster survives
    intro m hm hdoomed hmem'
    obtain ⟨c, hcmem, hcid, hcu, hccat⟩ := hdoomed
    rcases insert_clusters_memberships _ _ _ _ _ _ _ _ m hmem' with h | ⟨j, hj⟩
    · rw [hst1m] at h
      have hpred := (List.mem_filter.mp h).2
      have hcdoomed : c ∈ st.clusters.filter
          (fun c => c.user_id == user_id && c.content_category == cat) :=
        List.mem_filter.mpr ⟨hcmem, by simp [hcu, hccat]⟩
      have hany : ((st.clusters.filter
          (fun c => c.user_id == user_id && c.content_category == cat)).any
          (fun c => c.id == m.cluster_id)) = true :=
        List.any_eq_true.mpr ⟨c, hcdoomed, by simp [hcid]⟩
      rw [hany] at hpred
      simp at hpred
    · exact hfresh j c hcmem (by rw [← hj, hcid])
  · -- every inserted cluster has ≥ MIN_CLUSTER_SIZE memberships
    intro c hc
    exact insert_clusters_counts _ _ _ _ _ _ _ _
      (fun r hr => run_clustering_sizes _ _ _ r hr) c hc

/-- Closed witness for `cluster_replacement`: three READY Food saves with
vectors, one pre-existing Food cluster with one membership; after
re-clustering the old cluster id and membership are gone and every inserted
cluster has at least two members. -/
theorem cluster_replacement_witness :
    (let mkc : String → SharedContent := fun i =>
       { id := i, url := i, url_hash := i, source_platform := .INSTAGRAM,
         status := .READY, content_category := some .FOOD,
         embedding_id := some i, save_count := 1 }
     let mks : String → String → UserContentSave := fun i ci =>
       { id := i, user_id := "u1", shared_content_id := ci }
     let oldc : Cluster :=
       { id := "old1", user_id := "u1", content_category := .FOOD, label := "Old" }
     let st : Store :=
       { contents := [mkc "c1", mkc "c2", mkc "c3"],
         saves := [mks "s1" "c1", mks "s2" "c2", mks "s3" "c3"],
         clusters := [oldc],
         memberships := [⟨"old1", "s1"⟩] }
     let emb : List (String × List ℚ) := [("c1", [1]), ("c2", [1]), ("c3", [1])]
     let fp : Nat → (Nat → Nat → ℚ) → List Nat := fun _ _ => [0, 0, 0]
     let cd : List (List ℚ) → Nat → Nat → ℚ := fun _ _ _ => 0
     let fids : Nat → String := fun _ => "new1"
     (∀ c ∈ st.clusters, c.user_id = "u1" → c.content_category = .FOOD →
       c.id ∉ (cluster_user_category fp cd none fids st "u1" .FOOD
         emb).2.clusters.map Cluster.id)
     ∧ (∀ m ∈ st.memberships,
         (∃ c ∈ st.clusters, c.id = m.cluster_id ∧ c.user_id = "u1" ∧
           c.content_category = .FOOD) →
         m ∉ (cluster_user_category fp cd none fids st "u1" .FOOD
           emb).2.memberships)
     ∧ (∀ c ∈ (cluster_user_category fp cd none fids st "u1" .FOOD emb).1,
         MIN_CLUSTER_SIZE ≤
           ((cluster_user_category fp cd none fids st "u1" .FOOD
             emb).2.memberships.filter
             (fun m => m.cluster_id == c.id)).length)) := by
  refine cluster_replacement _ _ none _ _ "u1" .FOOD _ (by decide) (by decide)
    ?_ ?_ (by decide)
  · intro l hl
    have hl' : l ∈ [0, 0, 0] := hl
    have hl0 : l = 0 := by simpa using hl'
    subst hl0
    exact lt_of_lt_of_le Nat.zero_lt_one (Nat.le_max_left _ _)
  · intro i c hc
    simp only [List.mem_singleton] at hc
    subst hc
    decide

end Dora
